import Mathlib

/-!
# Order Lifecycle Engine — verification of the specification against the code

Shallow embedding of the restaurant-management repository's order
lifecycle core: the `OrderState` finite state machine
(`include/OrderFSM.h`, `daa_project.c++` `OrderFlowManager`), the order
entity's guarded transition (`include/Models.h` `Order::updateState`,
`daa_project.c++` `Order::tryUpdateStatus`), the business rules
(`src/BusinessRules.cpp`), the idempotency service
(`src/IdempotencyService.cpp`), the event bus (`src/EventSystem.cpp`)
and the command layer (`src/CommandPattern.cpp`,
`src/OrderCommandService.cpp`).

Machine time (`std::time_t`) is modelled as `Int`; strings as `String`;
listener pointers as `Nat` identities with behaviour supplied by an
environment function.  Globals (the idempotency registry, the event-bus
listener vector) are passed explicitly as values.
-/

/-- The order-state enumeration, identical in `include/OrderFSM.h` and in
`daa_project.c++` (`Domain::OrderState`). -/
inductive OrderState where
  | CREATED
  | CONFIRMED
  | PREPARING
  | READY
  | SERVED
  | CANCELLED
  | REFUNDED
deriving DecidableEq, Repr, Fintype

open OrderState

/-- `OrderFSM::canTransition` from `include/OrderFSM.h` (lines 21-36).
`OrderFlowManager::canTransition` in `daa_project.c++` (lines 208-219) is
the same table written with explicit `CANCELLED`/`REFUNDED` cases instead
of the `default: return false`. -/
def canTransition (from_ to_ : OrderState) : Bool :=
  match from_ with
  | CREATED   => to_ == CONFIRMED || to_ == CANCELLED
  | CONFIRMED => to_ == PREPARING || to_ == CANCELLED
  | PREPARING => to_ == READY
  | READY     => to_ == SERVED || to_ == CANCELLED
  | SERVED    => to_ == REFUNDED
  | _         => false

/-- `OrderFSM::toString` from `include/OrderFSM.h`: the upper-case names
used by the business-rule violation messages. -/
def OrderFSM.toString : OrderState → String
  | CREATED   => "CREATED"
  | CONFIRMED => "CONFIRMED"
  | PREPARING => "PREPARING"
  | READY     => "READY"
  | SERVED    => "SERVED"
  | CANCELLED => "CANCELLED"
  | REFUNDED  => "REFUNDED"

/-- `OrderFlowManager::stateToString` from `daa_project.c++` (lines
221-224): the capitalised display names used for persistence/reporting. -/
def stateToString : OrderState → String
  | CREATED   => "Created"
  | CONFIRMED => "Confirmed"
  | PREPARING => "Preparing"
  | READY     => "Ready"
  | SERVED    => "Served"
  | CANCELLED => "Cancelled"
  | REFUNDED  => "Refunded"

/-- `OrderFlowManager::stringToState` from `daa_project.c++` (lines
226-235): sequential comparison against the seven display names, with the
source's fallback `return Domain::OrderState::CREATED; // Default` for any
other input. -/
def stringToState (s : String) : OrderState :=
  if s == "Created" then CREATED
  else if s == "Confirmed" then CONFIRMED
  else if s == "Preparing" then PREPARING
  else if s == "Ready" then READY
  else if s == "Served" then SERVED
  else if s == "Cancelled" then CANCELLED
  else if s == "Refunded" then REFUNDED
  else CREATED

/-- The edges of the transition table as the specification (§4.1) lists
them: Created→{Confirmed, Cancelled}, Confirmed→{Preparing, Cancelled},
Preparing→{Ready}, Ready→{Served, Cancelled}, Served→{Refunded}.  Written
from the spec's table so that `canTransition` (written from the source)
can be compared against it. -/
def specEdges : List (OrderState × OrderState) :=
  [(CREATED, CONFIRMED), (CREATED, CANCELLED),
   (CONFIRMED, PREPARING), (CONFIRMED, CANCELLED),
   (PREPARING, READY),
   (READY, SERVED), (READY, CANCELLED),
   (SERVED, REFUNDED)]

/-- C1: `canTransition(from, to)` is true exactly on the edges of the
spec's transition table; in particular there are no self-loops, and
`Cancelled` and `Refunded` have no outgoing edges. -/
theorem canTransition_iff_specEdges :
    (∀ f t : OrderState, canTransition f t = true ↔ (f, t) ∈ specEdges) ∧
    (∀ s : OrderState, canTransition s s = false) ∧
    (∀ x : OrderState,
      canTransition CANCELLED x = false ∧ canTransition REFUNDED x = false) := by
  refine ⟨?_, ?_, ?_⟩ <;> decide

/-- C7: parsing the display name of a state yields the state back:
`stringToState (stateToString s) = s` for each of the seven states. -/
theorem stringToState_stateToString_roundTrip :
    ∀ s : OrderState, stringToState (stateToString s) = s := by
  decide

/-- C3: the code's behaviour at an unrecognized input.  `"garbage"` is not
the display name of any state, yet `stringToState` silently returns the
default `CREATED` instead of failing — the latent data-integrity bug the
specification flags (§4.1, §7, §9). -/
theorem stringToState_silently_defaults :
    ([CREATED, CONFIRMED, PREPARING, READY, SERVED, CANCELLED,
      REFUNDED].map stateToString).contains "garbage" = false ∧
    stringToState "garbage" = CREATED := by
  constructor
  · decide
  · rfl

namespace Models

/-- The `Order` struct of `include/Models.h` (lines 21-36).  `double total`
is carried as an opaque rational value; `std::time_t timestamp` as `Int`.
No claim computes with either, only their (un)changedness matters. -/
structure Order where
  orderId    : Int
  customerId : Int
  total      : Rat
  priority   : Int
  timestamp  : Int
  state      : OrderState
deriving DecidableEq, Repr

/-- `Order::updateState` of `include/Models.h` (lines 29-35): if
`OrderFSM::canTransition(state, next)` then mutate `state` and return
`true`, else return `false`.  The mutation is modelled by returning the
order after the call alongside the boolean result. -/
def Order.updateState (o : Order) (next : OrderState) : Bool × Order :=
  if canTransition o.state next then
    (true, { o with state := next })
  else
    (false, o)

end Models

/-- A log line, as produced by `Core::Logger::log(level, message)`. -/
structure LogEntry where
  level   : String
  message : String
deriving DecidableEq, Repr

namespace Domain

/-- The `Order` struct of `daa_project.c++` (lines 262-290): the variant
with a table number, a fixed-capacity item list and an `orderTime`.
`double totalAmount` is carried as an opaque rational value. -/
structure Order where
  orderId     : Int
  customerId  : Int
  tableNumber : Int
  items       : List String
  itemCount   : Int
  totalAmount : Rat
  priority    : Int
  status      : OrderState
  orderTime   : Int
deriving DecidableEq, Repr

/-- `Order::tryUpdateStatus` of `daa_project.c++` (lines 275-286): on a
legal transition, mutate `status`, log at INFO and return `true`; on an
illegal one, leave the order untouched, log a WARNING naming the from and
to states, and return `false`.  Modelled as returning the result, the
order after the call, and the log line written. -/
def Order.tryUpdateStatus (o : Order) (newState : OrderState) :
    Bool × Order × LogEntry :=
  if canTransition o.status newState then
    (true, { o with status := newState },
     { level := "INFO",
       message := "Order " ++ toString o.orderId ++ " transitioned to " ++
                  stateToString newState })
  else
    (false, o,
     { level := "WARNING",
       message := "Invalid state transition for order " ++ toString o.orderId ++
                  ": " ++ stateToString o.status ++ " -> " ++
                  stateToString newState })

end Domain

/-- C2 counterexample: the failure report of `Order::updateState`
(`include/Models.h`) is the bare boolean `false` together with the
untouched order, so it does not identify the attempted `to` state: for a
concrete order stuck in `CANCELLED`, the rejected transitions to
`CONFIRMED` and to `PREPARING` produce byte-for-byte identical outcomes,
although the claim's `TransitionError{from, to}` would distinguish them. -/
theorem updateState_failure_not_identifying :
    Models.Order.updateState
        { orderId := 1, customerId := 7, total := 45, priority := 0,
          timestamp := 0, state := CANCELLED } CONFIRMED
      = Models.Order.updateState
        { orderId := 1, customerId := 7, total := 45, priority := 0,
          timestamp := 0, state := CANCELLED } PREPARING ∧
    (Models.Order.updateState
        { orderId := 1, customerId := 7, total := 45, priority := 0,
          timestamp := 0, state := CANCELLED } CONFIRMED).1 = false ∧
    (CONFIRMED == PREPARING) = false := by
  refine ⟨rfl, rfl, by decide⟩

/-- C2 (amended): both guarded transitions succeed exactly when
`canTransition` allows the edge; on success only the `state`/`status`
field changes; on failure the order is returned unchanged and the result
is the boolean `false` — `tryUpdateStatus` additionally logs a WARNING
line naming the from and to states, but neither operation returns an
error value identifying them. -/
theorem guarded_transition_spec (o : Models.Order) (d : Domain.Order)
    (next : OrderState) :
    (o.updateState next).1 = canTransition o.state next ∧
    (o.updateState next).2 =
      (if canTransition o.state next then { o with state := next } else o) ∧
    (d.tryUpdateStatus next).1 = canTransition d.status next ∧
    (d.tryUpdateStatus next).2.1 =
      (if canTransition d.status next then { d with status := next } else d) ∧
    (canTransition d.status next = false →
      (d.tryUpdateStatus next).2.2 =
        { level := "WARNING",
          message := "Invalid state transition for order " ++
                     toString d.orderId ++ ": " ++ stateToString d.status ++
                     " -> " ++ stateToString next }) := by
  unfold Models.Order.updateState Domain.Order.tryUpdateStatus
  by_cases h : canTransition d.status next = true <;>
    by_cases h2 : canTransition o.state next = true <;>
    simp [h, h2]

/-- C2 witness: the amended theorem at a concrete order in `CREATED`
attempting the illegal jump straight to `SERVED`. -/
theorem guarded_transition_spec_witness :
    ((({ orderId := 2, customerId := 3, total := 10, priority := 1,
         timestamp := 5, state := CREATED } : Models.Order).updateState
        SERVED).1 = canTransition CREATED SERVED) ∧
    ((({ orderId := 2, customerId := 3, tableNumber := 4, items := [],
         itemCount := 0, totalAmount := 10, priority := 1,
         status := CREATED, orderTime := 5 } : Domain.Order).tryUpdateStatus
        SERVED).2.2 =
      { level := "WARNING",
        message := "Invalid state transition for order 2: Created -> Served" }) := by
  have h := guarded_transition_spec
    { orderId := 2, customerId := 3, total := 10, priority := 1,
      timestamp := 5, state := CREATED }
    { orderId := 2, customerId := 3, tableNumber := 4, items := [],
      itemCount := 0, totalAmount := 10, priority := 1,
      status := CREATED, orderTime := 5 }
    SERVED
  refine ⟨h.1, ?_⟩
  have := h.2.2.2.2 (by decide)
  simpa using this

namespace BusinessRules

/-- `BusinessRules::canCancelOrder` (`src/BusinessRules.cpp` lines 33-40):
rejects exactly `SERVED`, `REFUNDED` and `CANCELLED`, writing a violation
message naming the state (via the upper-case `OrderFSM::toString`).  The
write to the static `lastViolationMessage` is modelled by the second
component (`none` when the static is left untouched). -/
def canCancelOrder (o : Models.Order) : Bool × Option String :=
  if o.state == SERVED || o.state == REFUNDED || o.state == CANCELLED then
    (false, some ("Cannot cancel order in " ++ OrderFSM.toString o.state ++ " state"))
  else
    (true, none)

/-- `BusinessRules::isWithinRefundWindow` (`src/BusinessRules.cpp` lines
128-134).  `refundWindowDays` is `Config::getInt("REFUND_WINDOW_DAYS", 7)`
(default 7), passed here as an explicit parameter; `now` is
`std::time(nullptr)`.  The source computes
`int daysSinceOrder = orderAge / (24 * 3600)` — C++ integer division
truncating toward zero, i.e. `Int.div` — and compares
`daysSinceOrder <= refundWindowDays`. -/
def isWithinRefundWindow (refundWindowDays : Int) (now : Int)
    (o : Models.Order) : Bool :=
  let orderAge := now - o.timestamp
  let daysSinceOrder := Int.tdiv orderAge (24 * 3600)
  daysSinceOrder ≤ refundWindowDays

end BusinessRules

/-- C5 counterexample: with the default `refundWindowDays = 7`, an order
whose age is `7 * 86400 + 1` seconds (one second past the claim's cutoff)
is still accepted by the code — `isWithinRefundWindow` compares whole
elapsed *days* (truncated), not seconds, so it is not equivalent to
`now - createdAt <= refundWindowDays * 86400`. -/
theorem isWithinRefundWindow_not_second_granular :
    BusinessRules.isWithinRefundWindow 7 604801
      { orderId := 1, customerId := 7, total := 45, priority := 0,
        timestamp := 0, state := SERVED } = true ∧
    (604801 : Int) - 0 > 7 * 86400 := by
  constructor
  · decide
  · decide

/-- C5 (amended): for a non-negative order age, the code accepts exactly
the ages strictly below `(refundWindowDays + 1) * 86400` seconds —
day-granular truncation, one day more permissive at the boundary than the
claim's `age <= refundWindowDays * 86400`.  The claim's concrete examples
survive: with the default 7-day window a 6-day-old order is inside and an
8-day-old order is outside. -/
theorem isWithinRefundWindow_iff (d now : Int) (o : Models.Order)
    (hage : 0 ≤ now - o.timestamp) :
    BusinessRules.isWithinRefundWindow d now o = true ↔
      now - o.timestamp < (d + 1) * 86400 := by
  have hdiv : Int.tdiv (now - o.timestamp) 86400 =
      (now - o.timestamp) / 86400 :=
    Int.tdiv_eq_ediv hage (by norm_num)
  simp only [BusinessRules.isWithinRefundWindow, hdiv, decide_eq_true_eq,
    show ((24 : Int) * 3600) = 86400 by norm_num]
  have hq := Int.ediv_add_emod (now - o.timestamp) 86400
  have hr0 : 0 ≤ (now - o.timestamp) % 86400 := Int.emod_nonneg _ (by norm_num)
  have hr1 : (now - o.timestamp) % 86400 < 86400 :=
    Int.emod_lt_of_pos _ (by norm_num)
  constructor
  · intro h
    nlinarith [hq, hr0, hr1, h]
  · intro h
    nlinarith [hq, hr0, hr1, h]

/-- C5 witness: the amended characterization at the claim's own examples —
a 6-day-old order (within, by `6*86400 < 8*86400`) and an 8-day-old order
(outside), both with the default 7-day window. -/
theorem isWithinRefundWindow_iff_witness :
    BusinessRules.isWithinRefundWindow 7 (6 * 86400)
      { orderId := 1, customerId := 7, total := 45, priority := 0,
        timestamp := 0, state := SERVED } = true ∧
    BusinessRules.isWithinRefundWindow 7 (8 * 86400)
      { orderId := 2, customerId := 7, total := 45, priority := 0,
        timestamp := 0, state := SERVED } = false := by
  constructor
  · exact (isWithinRefundWindow_iff 7 (6 * 86400)
      { orderId := 1, customerId := 7, total := 45, priority := 0,
        timestamp := 0, state := SERVED } (by decide)).2 (by decide)
  · have h := isWithinRefundWindow_iff 7 (8 * 86400)
      { orderId := 2, customerId := 7, total := 45, priority := 0,
        timestamp := 0, state := SERVED } (by decide)
    by_contra hc
    have : (8 : Int) * 86400 - 0 < (7 + 1) * 86400 := by
      apply h.1
      simp only [Bool.not_eq_false] at hc
      simpa using hc
    omega

/-- C9: the business rule and the FSM disagree on cancelling a `PREPARING`
order — `canCancelOrder` accepts it (it rejects only `SERVED`, `CANCELLED`
and `REFUNDED`), yet `canTransition(PREPARING, CANCELLED)` is false, so the
guarded transition always rejects the cancellation. -/
theorem preparing_cancel_disagreement (o : Models.Order)
    (h : o.state = PREPARING) :
    (BusinessRules.canCancelOrder o).1 = true ∧
    canTransition o.state CANCELLED = false ∧
    o.updateState CANCELLED = (false, o) := by
  refine ⟨?_, ?_, ?_⟩
  · simp [BusinessRules.canCancelOrder, h]
  · rw [h]; decide
  · simp [Models.Order.updateState, h, canTransition]

/-- C9 witness: the disagreement at a concrete `PREPARING` order. -/
theorem preparing_cancel_disagreement_witness :
    (BusinessRules.canCancelOrder
      { orderId := 9, customerId := 4, total := 20, priority := 0,
        timestamp := 100, state := PREPARING }).1 = true ∧
    canTransition PREPARING CANCELLED = false := by
  have h := preparing_cancel_disagreement
    { orderId := 9, customerId := 4, total := 20, priority := 0,
      timestamp := 100, state := PREPARING } rfl
  exact ⟨h.1, h.2.1⟩

/-- The `IdempotencyRecord` struct of `include/IdempotencyService.h`
(lines 13-25). -/
structure IdempotencyRecord where
  requestId     : String
  operationType : String
  succeeded     : Bool
  resultData    : String
  createdAt     : Int
  ttlSeconds    : Int
deriving DecidableEq, Repr

/-- `IdempotencyRecord::isExpired` (`include/IdempotencyService.h` lines
21-24): `(now - createdAt) > ttlSeconds`, with `now` passed explicitly. -/
def IdempotencyRecord.isExpired (r : IdempotencyRecord) (now : Int) : Bool :=
  now - r.createdAt > r.ttlSeconds

/-- The static `std::map<std::string, IdempotencyRecord> registry`,
modelled as an association list with unique keys (`store` overwrites). -/
abbrev Registry := List (String × IdempotencyRecord)

namespace IdempotencyService

/-- `registry[requestId] = record` — `std::map` insert-or-overwrite. -/
def store (reg : Registry) (k : String) (r : IdempotencyRecord) : Registry :=
  (k, r) :: reg.filter (fun p => !(p.1 == k))

/-- `IdempotencyService::isDuplicate` (`src/IdempotencyService.cpp` lines
7-29): miss → not duplicate; hit but expired → erase the record and report
not duplicate; live hit → write the cached `resultData` into the out
parameter and report duplicate.  Result: (returned bool, the out-parameter
write, registry after the call). -/
def isDuplicate (reg : Registry) (requestId : String) (now : Int) :
    Bool × Option String × Registry :=
  match reg.lookup requestId with
  | none => (false, none, reg)
  | some r =>
    if r.isExpired now then
      (false, none, reg.filter (fun p => !(p.1 == requestId)))
    else
      (true, some r.resultData, reg)

/-- `IdempotencyService::recordSuccess` (`src/IdempotencyService.cpp`
lines 31-43): store a succeeded record stamped `createdAt = now` with the
static `defaultTTLSeconds` (86400 unless changed by `setDefaultTTL`),
passed here explicitly. -/
def recordSuccess (reg : Registry) (requestId operationType resultData : String)
    (now defaultTTLSeconds : Int) : Registry :=
  store reg requestId
    { requestId := requestId, operationType := operationType,
      succeeded := true, resultData := resultData,
      createdAt := now, ttlSeconds := defaultTTLSeconds }

end IdempotencyService

/-- C6: on a registry with no record for `R`, `isDuplicate` reports
not-a-duplicate; after `recordSuccess(R, op, P)` at time `t0` with TTL
`ttl`, `isDuplicate(R)` at time `t1` returns the cached payload `P` while
`t1 - t0 <= ttl`, and reports not-a-duplicate again (erasing the record)
once `t1 - t0 > ttl`. -/
theorem isDuplicate_lifecycle (reg : Registry) (R op P : String)
    (t0 t1 ttl : Int) (hfresh : reg.lookup R = none) :
    IdempotencyService.isDuplicate reg R t1 = (false, none, reg) ∧
    (t1 - t0 ≤ ttl →
      (IdempotencyService.isDuplicate
          (IdempotencyService.recordSuccess reg R op P t0 ttl) R t1).1 = true ∧
      (IdempotencyService.isDuplicate
          (IdempotencyService.recordSuccess reg R op P t0 ttl) R t1).2.1 = some P) ∧
    (t1 - t0 > ttl →
      (IdempotencyService.isDuplicate
          (IdempotencyService.recordSuccess reg R op P t0 ttl) R t1).1 = false ∧
      (IdempotencyService.isDuplicate
          (IdempotencyService.recordSuccess reg R op P t0 ttl) R t1).2.1 = none) := by
  refine ⟨?_, ?_, ?_⟩
  · simp [IdempotencyService.isDuplicate, hfresh]
  · intro hlive
    have hexp : ({ requestId := R, operationType := op, succeeded := true,
                   resultData := P, createdAt := t0,
                   ttlSeconds := ttl } : IdempotencyRecord).isExpired t1
        = false := by
      simp [IdempotencyRecord.isExpired]
      omega
    simp [IdempotencyService.isDuplicate, IdempotencyService.recordSuccess,
      IdempotencyService.store, List.lookup, hexp]
  · intro hgone
    have hexp : ({ requestId := R, operationType := op, succeeded := true,
                   resultData := P, createdAt := t0,
                   ttlSeconds := ttl } : IdempotencyRecord).isExpired t1
        = true := by
      simp [IdempotencyRecord.isExpired]
      omega
    simp [IdempotencyService.isDuplicate, IdempotencyService.recordSuccess,
      IdempotencyService.store, List.lookup, hexp]

/-- C6 witness: the lifecycle at `R1` on an empty registry: fresh check
misses, the cached payload is served 100 seconds after recording (the
default TTL being 86400), and the check misses again 86401 seconds after
recording. -/
theorem isDuplicate_lifecycle_witness :
    IdempotencyService.isDuplicate [] "R1" 100 = (false, none, []) ∧
    (IdempotencyService.isDuplicate
        (IdempotencyService.recordSuccess [] "R1" "place_order"
          "OrderID=1|Amount=100.00" 0 86400) "R1" 100).2.1 =
      some "OrderID=1|Amount=100.00" ∧
    (IdempotencyService.isDuplicate
        (IdempotencyService.recordSuccess [] "R1" "place_order"
          "OrderID=1|Amount=100.00" 0 86400) "R1" 86401).1 = false := by
  have h1 := isDuplicate_lifecycle [] "R1" "place_order"
    "OrderID=1|Amount=100.00" 0 100 86400 rfl
  have h2 := isDuplicate_lifecycle [] "R1" "place_order"
    "OrderID=1|Amount=100.00" 0 86401 86400 rfl
  exact ⟨h1.1, (h1.2.1 (by norm_num)).2, (h2.2.2 (by norm_num)).1⟩

/-- The `EventType` enumeration of `include/EventSystem.h` (lines 12-26). -/
inductive EventType where
  | ORDER_PLACED
  | ORDER_CONFIRMED
  | ORDER_PREPARING
  | ORDER_READY
  | ORDER_SERVED
  | ORDER_CANCELLED
  | ORDER_REFUNDED
  | INVENTORY_UPDATED
  | INVENTORY_LOW
  | CUSTOMER_CREATED
  | CUSTOMER_DELETED
  | PAYMENT_PROCESSED
  | REFUND_ISSUED
deriving DecidableEq, Repr

/-- The `Event` struct of `include/EventSystem.h` (lines 28-35). -/
structure Event where
  type         : EventType
  entityId     : Int
  entityType   : String
  details      : String
  timestamp    : Int
  sourceAction : String
deriving DecidableEq, Repr

/-- An `EventListener*`: listeners are compared by pointer identity
(`std::find` over the `listeners` vector), modelled as an opaque numeric
identity.  A listener's `onEvent` behaviour is supplied separately by an
environment function, so the same identity model serves `subscribe` (which
never calls `onEvent`) and `emit` (which does). -/
abbrev ListenerId := Nat

/-- What happened to one listener during `EventBus::emit`: `onEvent`
returned normally, or threw and the exception was caught and logged by the
dispatcher's `try`/`catch`. -/
inductive Delivery where
  | ok     (l : ListenerId)
  | caught (l : ListenerId) (msg : String)
deriving DecidableEq, Repr

/-- The listener an outcome belongs to. -/
def Delivery.listener : Delivery → ListenerId
  | .ok l => l
  | .caught l _ => l

namespace EventBus

/-- The body of the dispatch loop of `EventBus::emit`
(`src/EventSystem.cpp` lines 59-66) for one listener: run `onEvent`
inside `try`, catch an exception into a logged `Delivery.caught`. -/
def dispatchOne (beh : ListenerId → Event → Except String Unit)
    (l : ListenerId) (e : Event) : Delivery :=
  match beh l e with
  | .ok _ => .ok l
  | .error m => .caught l m

/-- `EventBus::emit` (`src/EventSystem.cpp` lines 36-67): iterate the
`listeners` vector front to back, invoking each listener's `onEvent` under
`try`/`catch`.  The function is total — `emit` returns to its caller (the
command that triggered the emission) whatever the listeners do — and its
value is the trace of per-listener outcomes. -/
def emitTrace (beh : ListenerId → Event → Except String Unit) :
    List ListenerId → Event → List Delivery
  | [], _ => []
  | l :: rest, e => dispatchOne beh l e :: emitTrace beh rest e

/-- `EventBus::subscribe` (`src/EventSystem.cpp` lines 15-24): a null
listener is ignored; an already-subscribed listener (found by `std::find`)
is not added again; otherwise the listener is appended at the back. -/
def subscribe (listeners : List ListenerId) (l : Option ListenerId) :
    List ListenerId :=
  match l with
  | none => listeners
  | some x => if x ∈ listeners then listeners else listeners ++ [x]

end EventBus

lemma emitTrace_map_listener
    (beh : ListenerId → Event → Except String Unit)
    (ls : List ListenerId) (e : Event) :
    (EventBus.emitTrace beh ls e).map Delivery.listener = ls := by
  induction ls with
  | nil => rfl
  | cons l rest ih =>
    simp only [EventBus.emitTrace, List.map_cons, ih]
    unfold EventBus.dispatchOne
    cases beh l e <;> simp [Delivery.listener]

lemma emitTrace_append
    (beh : ListenerId → Event → Except String Unit)
    (a b : List ListenerId) (e : Event) :
    EventBus.emitTrace beh (a ++ b) e =
      EventBus.emitTrace beh a e ++ EventBus.emitTrace beh b e := by
  induction a with
  | nil => rfl
  | cons l rest ih => simp [EventBus.emitTrace, ih]

/-- C8: `emit` delivers the event to every currently subscribed listener
in subscription order — the trace of `onEvent` invocations lists exactly
the `listeners` vector — and a listener that throws is caught in place:
the listeners before it are unaffected, the listeners after it receive
exactly the deliveries they would receive alone, and `emit` still returns
(its result is a total function of the inputs, never a propagated
exception). -/
theorem emit_isolates_listener_failures
    (beh : ListenerId → Event → Except String Unit)
    (ls pre post : List ListenerId) (l : ListenerId) (e : Event)
    (hsplit : ls = pre ++ l :: post) :
    (EventBus.emitTrace beh ls e).map Delivery.listener = ls ∧
    EventBus.emitTrace beh ls e =
      EventBus.emitTrace beh pre e ++
        EventBus.dispatchOne beh l e :: EventBus.emitTrace beh post e := by
  subst hsplit
  refine ⟨emitTrace_map_listener beh _ e, ?_⟩
  rw [emitTrace_append]
  rfl

/-- C8 witness: three subscribed listeners, the middle one throwing.  Its
exception is caught and logged; listeners 1 and 3 are still delivered the
event, in order. -/
theorem emit_isolates_listener_failures_witness :
    EventBus.emitTrace
        (fun l _ => if l == 2 then Except.error "boom" else Except.ok ())
        [1, 2, 3]
        { type := EventType.ORDER_PLACED, entityId := 1,
          entityType := "Order", details := "", timestamp := 0,
          sourceAction := "test" } =
      [Delivery.ok 1, Delivery.caught 2 "boom", Delivery.ok 3] := by
  have h := emit_isolates_listener_failures
    (fun l _ => if l == 2 then Except.error "boom" else Except.ok ())
    [1, 2, 3] [1] [3] 2
    { type := EventType.ORDER_PLACED, entityId := 1,
      entityType := "Order", details := "", timestamp := 0,
      sourceAction := "test" } rfl
  exact h.2.trans rfl

/-- C10: `subscribe` is null-safe and idempotent — subscribing a null
listener or an already-subscribed listener leaves the vector unchanged —
and it preserves distinctness of the subscribed listeners, so under the
distinctness invariant `emit` delivers a given event to a given listener
at most once however many times that listener was subscribed. -/
theorem subscribe_idempotent_nullsafe
    (ls : List ListenerId) (x y : ListenerId)
    (beh : ListenerId → Event → Except String Unit) (e : Event)
    (hmem : x ∈ ls) (hnd : ls.Nodup) :
    EventBus.subscribe ls none = ls ∧
    EventBus.subscribe ls (some x) = ls ∧
    (EventBus.subscribe ls (some y)).Nodup ∧
    ((EventBus.emitTrace beh ls e).map Delivery.listener).count x ≤ 1 := by
  refine ⟨rfl, ?_, ?_, ?_⟩
  · simp [EventBus.subscribe, hmem]
  · by_cases hy : y ∈ ls
    · simpa [EventBus.subscribe, hy] using hnd
    · simp [EventBus.subscribe, hy, List.nodup_append, hnd]
  · rw [emitTrace_map_listener]
    exact List.nodup_iff_count_le_one.mp hnd x

/-- C10 witness: re-subscribing listener 5 to the vector `[5, 6]` changes
nothing, and emission reaches listener 5 exactly once. -/
theorem subscribe_idempotent_nullsafe_witness :
    EventBus.subscribe [5, 6] none = [5, 6] ∧
    EventBus.subscribe [5, 6] (some 5) = [5, 6] ∧
    ((EventBus.emitTrace (fun _ _ => Except.ok ()) [5, 6]
        { type := EventType.ORDER_PLACED, entityId := 1,
          entityType := "Order", details := "", timestamp := 0,
          sourceAction := "test" }).map Delivery.listener).count 5 ≤ 1 := by
  have h := subscribe_idempotent_nullsafe [5, 6] 5 5
    (fun _ _ => Except.ok ())
    { type := EventType.ORDER_PLACED, entityId := 1,
      entityType := "Order", details := "", timestamp := 0,
      sourceAction := "test" }
    (by decide) (by decide)
  exact ⟨h.1, h.2.1, h.2.2.2⟩

/-- The in-process state a command could touch: the order entity it names,
the idempotency registry, and the stream of events emitted on the bus
(recorded as event type and timestamp — the only `Event` fields the
commands in `src/CommandPattern.cpp` initialize). -/
structure World where
  order    : Models.Order
  registry : Registry
  emitted  : List (EventType × Int)
deriving DecidableEq, Repr

namespace PlaceOrderCommand

/-- `PlaceOrderCommand::execute` (`src/CommandPattern.cpp` lines 58-65):
log, build an `Event` of type `ORDER_PLACED` stamped `std::time(nullptr)`
(`now`), emit it on the bus, return `true`.  The command's `Order order`
member is never consulted; no idempotency check, business-rule check or
FSM transition appears in the body. -/
def execute (order : Models.Order) (now : Int) (w : World) : Bool × World :=
  (true, { w with emitted := w.emitted ++ [(EventType.ORDER_PLACED, now)] })

end PlaceOrderCommand

namespace ConfirmOrderCommand

/-- `ConfirmOrderCommand::execute` (`src/CommandPattern.cpp` lines
127-134): log the member `orderId`, emit `ORDER_CONFIRMED`, return `true`
— without reading or writing any order, registry or rule. -/
def execute (orderId : Int) (now : Int) (w : World) : Bool × World :=
  (true, { w with emitted := w.emitted ++ [(EventType.ORDER_CONFIRMED, now)] })

end ConfirmOrderCommand

namespace IssueRefundCommand

/-- `IssueRefundCommand::execute` (`src/CommandPattern.cpp` lines
104-111): log the member `amount`, emit `REFUND_ISSUED`, return `true` —
again touching no order, registry or rule. -/
def execute (orderId : Int) (amount : Rat) (reason : String) (now : Int)
    (w : World) : Bool × World :=
  (true, { w with emitted := w.emitted ++ [(EventType.REFUND_ISSUED, now)] })

end IssueRefundCommand

namespace OrderCommandService

/-- `OrderCommandService::confirmOrder` (`src/OrderCommandService.cpp`
lines 43-52), the second "enterprise" variant: log, publish an
`OrderConfirmedEvent` carrying the string order id through its event
system, return.  The published-event stream is modelled as a list of
tags; nothing else is read or written (the body's own comment: "For this
demo, just log the command"). -/
def confirmOrder (orderId : String) (published : List String) : List String :=
  published ++ ["OrderConfirmedEvent " ++ orderId]

end OrderCommandService

/-- C4 counterexample: a world whose only order is terminally `CANCELLED`
— so `canTransition(CANCELLED, CONFIRMED)` is false and any business rule
about confirming could not pass — yet `ConfirmOrderCommand::execute`
succeeds and emits `ORDER_CONFIRMED` anyway, and the order and the
idempotency registry are exactly as before: no guard ran, no transition
happened, and an event was emitted although the transition would have
failed. -/
theorem confirm_emits_despite_illegal_transition :
    canTransition CANCELLED CONFIRMED = false ∧
    ConfirmOrderCommand.execute 5 1000
        { order := { orderId := 5, customerId := 7, total := 45,
                     priority := 0, timestamp := 0, state := CANCELLED },
          registry := [], emitted := [] } =
      (true,
       { order := { orderId := 5, customerId := 7, total := 45,
                    priority := 0, timestamp := 0, state := CANCELLED },
         registry := [],
         emitted := [(EventType.ORDER_CONFIRMED, 1000)] }) := by
  exact ⟨by decide, rfl⟩

/-- C4 (amended): each command's `execute` is unconditional — it returns
`true` and appends exactly one event of its fixed type to the bus,
regardless of the order's state and of the idempotency registry, both of
which it leaves untouched; `OrderCommandService::confirmOrder` likewise
only publishes.  No duplicate check, rule check or FSM transition is
performed by any of them. -/
theorem commands_emit_unconditionally (o : Models.Order) (oid : Int)
    (amount : Rat) (reason : String) (now : Int) (w : World)
    (sid : String) (published : List String) :
    PlaceOrderCommand.execute o now w =
      (true, { w with emitted := w.emitted ++ [(EventType.ORDER_PLACED, now)] }) ∧
    ConfirmOrderCommand.execute oid now w =
      (true, { w with emitted := w.emitted ++ [(EventType.ORDER_CONFIRMED, now)] }) ∧
    IssueRefundCommand.execute oid amount reason now w =
      (true, { w with emitted := w.emitted ++ [(EventType.REFUND_ISSUED, now)] }) ∧
    (ConfirmOrderCommand.execute oid now w).2.order = w.order ∧
    (ConfirmOrderCommand.execute oid now w).2.registry = w.registry ∧
    OrderCommandService.confirmOrder sid published =
      published ++ ["OrderConfirmedEvent " ++ sid] := by
  exact ⟨rfl, rfl, rfl, rfl, rfl, rfl⟩
